import Mathlib

/-!
Shallow embedding of the document-processing pipeline in `app.py`
(ctdtechs/genai): PDF text extraction, image metadata extraction,
prompt building, the Bedrock `converse` invocation wrapper, JSON
response interpretation with per-field defaults, and the ERP-readiness
presentation branch.
-/

/-- JSON values as produced by Python's `json.loads` / consumed by
`json.dumps`.  Numbers are modelled as integers: the only numbers the
pipeline itself constructs are the integer image width and height, and
every claim treats response values opaquely. -/
inductive JsonVal where
  | str (s : String)
  | num (n : Int)
  | bool (b : Bool)
  | null
  | arr (vs : List JsonVal)
  | obj (kvs : List (String × JsonVal))

/-- Python `dict.get(key, default)` on a parsed JSON object.  Objects
produced by `json.loads` have unique keys, so first-match lookup agrees
with Python's dictionary semantics. -/
def getD (kvs : List (String × JsonVal)) (key : String) (default : JsonVal) : JsonVal :=
  match kvs.lookup key with
  | some v => v
  | none => default

/-- ASCII whitespace as recognised by Python's `str.strip()` (space,
tab, newline, carriage return, vertical tab, form feed).  Python also
strips Unicode whitespace, which never arises in the claims checked
here. -/
def isPySpace (c : Char) : Bool :=
  c = ' ' || c = '\t' || c = '\n' || c = '\r' || c = '\x0b' || c = '\x0c'

/-- Python `str.strip()` with no argument: remove leading and trailing
whitespace. -/
def pyStrip (s : String) : String :=
  String.mk ((s.data.dropWhile isPySpace).reverse.dropWhile isPySpace).reverse

/-- Removal of trailing whitespace only (the operation the spec's words
"trimmed of trailing whitespace" describe; spec-side definition used to
compare the extractor against the claim's formula). -/
def trimTrailing (s : String) : String :=
  String.mk (s.data.reverse.dropWhile isPySpace).reverse

/-- One step of the page loop in `extract_text_from_pdf` (app.py lines
57-60): `if page_text: text += page_text + "\n"`.  A page whose
extraction returns `None` or the empty string contributes nothing. -/
def pdfStep (text : String) (page_text : Option String) : String :=
  match page_text with
  | some t => if t = "" then text else text ++ t ++ "\n"
  | none => text

/-- `extract_text_from_pdf` (app.py lines 54-61), over the list of
per-page results of `page.extract_text()` (an optional string per
page). -/
def extract_text_from_pdf (pages : List (Option String)) : String :=
  pyStrip (pages.foldl pdfStep "")

/-- The spec's "concatenation, in page order, of each page's text
followed by a newline" (spec-side definition used to compare the
extractor against the claim's formula). -/
def pagesConcat : List String → String
  | [] => ""
  | t :: ts => t ++ "\n" ++ pagesConcat ts

/-- The six fields the presentation reads out of the parsed response
(app.py lines 168, 171, 174, 176, 183 and 211). -/
structure InterpretedResult where
  summary : JsonVal
  domain : JsonVal
  origin : JsonVal
  document_type : JsonVal
  erp_status : JsonVal
  transformed_data : JsonVal

/-- The Response Interpreter: the six independent `parsed.get` lookups
of the presentation section, with their defaults exactly as written in
the source: "No summary available" for `summary` (line 176), "Unknown"
for `domain`, `origin` and `document_type` (lines 168, 171, 174),
"NOT_READY" for `erp_status` (line 183) and the empty object for
`transformed_data` (line 211). -/
def interpret (parsed : List (String × JsonVal)) : InterpretedResult :=
  { summary := getD parsed "summary" (JsonVal.str "No summary available")
    domain := getD parsed "domain" (JsonVal.str "Unknown")
    origin := getD parsed "origin" (JsonVal.str "Unknown")
    document_type := getD parsed "document_type" (JsonVal.str "Unknown")
    erp_status := getD parsed "erp_status" (JsonVal.str "NOT_READY")
    transformed_data := getD parsed "transformed_data" (JsonVal.obj []) }

/-- The two presentation branches of the ERP readiness section (app.py
lines 185-188). -/
inductive ErpPath where
  | ready
  | manualReview

/-- The branch test `if erp_status == "READY"` (app.py line 185):
Python equality between the looked-up JSON value and the string
"READY" (true exactly when the value is that string). -/
def erpBranch (erp_status : JsonVal) : ErpPath :=
  match erp_status with
  | JsonVal.str s => if s = "READY" then ErpPath.ready else ErpPath.manualReview
  | _ => ErpPath.manualReview

/-- The attributes of a decoded PIL image that `process_image` reads
(`format` is optional in PIL), together with the pixel raster, which
`process_image` never touches. -/
structure PILImage where
  format : Option String
  mode : String
  width : Nat
  height : Nat
  pixels : List (List Nat)

/-- `process_image` (app.py lines 64-72): the five-key metadata
record. -/
def process_image (image : PILImage) : List (String × JsonVal) :=
  [("document_type", JsonVal.str "Image"),
   ("format", match image.format with | some f => JsonVal.str f | none => JsonVal.null),
   ("mode", JsonVal.str image.mode),
   ("width", JsonVal.num (image.width : Int)),
   ("height", JsonVal.num (image.height : Int))]

/-- Lowercase hexadecimal digit. -/
def hexDigit (n : Nat) : Char :=
  if n < 10 then Char.ofNat (48 + n) else Char.ofNat (87 + n)

/-- Four-digit lowercase hexadecimal rendering used by JSON escapes. -/
def hex4 (n : Nat) : String :=
  String.mk [hexDigit (n / 4096 % 16), hexDigit (n / 256 % 16), hexDigit (n / 16 % 16),
    hexDigit (n % 16)]

/-- Escaping of one character inside a JSON string as Python's
`json.dumps` does with its default `ensure_ascii=True`: printable ASCII
other than quote and backslash passes through, the short escapes cover
the usual control characters, everything else becomes a u-escape (a
surrogate pair beyond the basic multilingual plane). -/
def escapeJsonChar (c : Char) : String :=
  if c = '"' then "\\\""
  else if c = '\\' then "\\\\"
  else if c = '\n' then "\\n"
  else if c = '\r' then "\\r"
  else if c = '\t' then "\\t"
  else if c = '\x08' then "\\b"
  else if c = '\x0c' then "\\f"
  else if 0x20 ≤ c.toNat && c.toNat ≤ 0x7e then String.mk [c]
  else if c.toNat < 0x10000 then "\\u" ++ hex4 c.toNat
  else
    "\\u" ++ hex4 (0xd800 + (c.toNat - 0x10000) / 0x400)
      ++ "\\u" ++ hex4 (0xdc00 + (c.toNat - 0x10000) % 0x400)

/-- A JSON string literal as `json.dumps` writes it. -/
def quoteJson (s : String) : String :=
  "\"" ++ String.join (s.data.map escapeJsonChar) ++ "\""

/-- The indentation prefix at a given nesting level for
`json.dumps(..., indent=2)`. -/
def jsonIndent (lvl : Nat) : String :=
  String.mk (List.replicate (2 * lvl) ' ')

mutual

/-- `json.dumps(v, indent=2)` at a given nesting level: containers open
on their own line, items are separated by a comma and newline, keys are
followed by a colon and a space, empty containers stay inline. -/
def dumpsVal : JsonVal → Nat → String
  | JsonVal.str s, _ => quoteJson s
  | JsonVal.num n, _ => toString n
  | JsonVal.bool b, _ => if b then "true" else "false"
  | JsonVal.null, _ => "null"
  | JsonVal.arr [], _ => "[]"
  | JsonVal.arr (v :: vs), lvl =>
      "[\n" ++ dumpsArrItems (v :: vs) (lvl + 1) ++ "\n" ++ jsonIndent lvl ++ "]"
  | JsonVal.obj [], _ => "\x7b\x7d"
  | JsonVal.obj (kv :: kvs), lvl =>
      "\x7b\n" ++ dumpsObjItems (kv :: kvs) (lvl + 1) ++ "\n" ++ jsonIndent lvl ++ "\x7d"

/-- The comma-and-newline separated items of a serialized array. -/
def dumpsArrItems : List JsonVal → Nat → String
  | [], _ => ""
  | [v], lvl => jsonIndent lvl ++ dumpsVal v lvl
  | v :: v2 :: vs, lvl =>
      jsonIndent lvl ++ dumpsVal v lvl ++ ",\n" ++ dumpsArrItems (v2 :: vs) lvl

/-- The comma-and-newline separated items of a serialized object. -/
def dumpsObjItems : List (String × JsonVal) → Nat → String
  | [], _ => ""
  | [(k, v)], lvl => jsonIndent lvl ++ quoteJson k ++ ": " ++ dumpsVal v lvl
  | (k, v) :: kv2 :: kvs, lvl =>
      jsonIndent lvl ++ quoteJson k ++ ": " ++ dumpsVal v lvl ++ ",\n"
        ++ dumpsObjItems (kv2 :: kvs) lvl

end

/-- `json.dumps(v, indent=2)` (app.py line 138). -/
def dumps2 (v : JsonVal) : String := dumpsVal v 0

/-- `build_prompt` (app.py lines 75-108): the fixed instruction
template with the extracted document text interpolated between the
Input_Text markers. -/
def build_prompt (document_text : String) : String :=
  "\nYou are an AI document intelligence assistant.\n\nTASKS:\n"
    ++ "1. Generate a concise business-friendly summary.\n"
    ++ "2. Identify the document domain (Healthcare, Legal, Finance, Insurance, Government, etc.).\n"
    ++ "3. Identify document origin/geography (India, US, EU, etc.) if possible.\n"
    ++ "4. Identify document type.\n"
    ++ "5. Decide ERP readiness.\n"
    ++ "6. Transform the data into structured JSON.\n\n"
    ++ "ERP READINESS RULES:\n"
    ++ "- READY: Key fields are clear and usable\n"
    ++ "- NOT_READY: Missing or unclear fields\n\n"
    ++ "STRICT OUTPUT FORMAT (JSON ONLY):\n"
    ++ "\x7b\n"
    ++ "  \"summary\": \"<short summary>\",\n"
    ++ "  \"domain\": \"<Healthcare | Legal | Finance | Insurance | Other>\",\n"
    ++ "  \"origin\": \"<Country or Region or Unknown>\",\n"
    ++ "  \"document_type\": \"<Invoice | Judgment | Medical Report | Policy | Other>\",\n"
    ++ "  \"erp_status\": \"<READY | NOT_READY>\",\n"
    ++ "  \"transformed_data\": \x7b\n"
    ++ "    \"key_points\": [],\n"
    ++ "    \"entities\": \x7b\x7d,\n"
    ++ "    \"confidence\": 0.0\n"
    ++ "  \x7d\n"
    ++ "\x7d\n\n"
    ++ "<Input_Text>\n"
    ++ document_text
    ++ "\n</Input_Text>\n"

/-- A Python exception as observed by an `except` clause: its class
name and its `str(e)` rendering. -/
structure PyException where
  kind : String
  message : String

/-- One content block of a Bedrock converse message; the "text" entry
is present exactly on text blocks. -/
structure ContentBlock where
  text : Option String

/-- One turn of a Bedrock conversation. -/
structure BedrockMessage where
  role : String
  content : List ContentBlock

/-- The `output` member of a converse reply. -/
structure ConverseOutput where
  message : BedrockMessage

/-- A successful converse reply, as far as `converse` reads it. -/
structure ConverseResponse where
  output : ConverseOutput

/-- The fixed decoding parameters (app.py lines 43-47).  The Python
float literals 0.5 and 0.9 are carried as exact rationals; no
arithmetic is ever performed on them. -/
structure InferenceConfig where
  maxTokens : Nat
  temperature : ℚ
  topP : ℚ

/-- The payload of one converse request. -/
structure BedrockRequest where
  modelId : String
  messages : List BedrockMessage
  inferenceConfig : InferenceConfig

/-- app.py line 17. -/
def MODEL_ID : String := "apac.anthropic.claude-3-5-sonnet-20241022-v2:0"

/-- The request `converse` builds (app.py lines 35-48): the prompt as a
single user-role turn with the fixed inference configuration. -/
def converseRequest (model_id user_message : String) : BedrockRequest :=
  { modelId := model_id
    messages := [{ role := "user", content := [{ text := some user_message }] }]
    inferenceConfig := { maxTokens := 8192, temperature := 0.5, topP := 0.9 } }

/-- `converse` (app.py lines 33-51).  The client `brt` is the one
external call; any exception it raises, and any KeyError or IndexError
raised while indexing into the response on line 49, is caught by the
`except (ClientError, Exception)` clause and re-raised as
`RuntimeError` with message `Bedrock invocation failed: ` followed by
`str(e)`, modelled as an `Except.error` carrying that message. -/
def converse (brt : BedrockRequest → Except PyException ConverseResponse)
    (model_id user_message : String) : Except String String :=
  match brt (converseRequest model_id user_message) with
  | Except.error e => Except.error ("Bedrock invocation failed: " ++ e.message)
  | Except.ok response =>
    match response.output.message.content with
    | [] => Except.error "Bedrock invocation failed: list index out of range"
    | block :: _ =>
      match block.text with
      | some t => Except.ok t
      | none => Except.error "Bedrock invocation failed: \x27text\x27"

/-- `converse` together with the list of requests issued to the client:
exactly one per call, by the shape of the code. -/
def converseLog (brt : BedrockRequest → Except PyException ConverseResponse)
    (model_id user_message : String) : Except String String × List BedrockRequest :=
  (converse brt model_id user_message, [converseRequest model_id user_message])

/-- Terminal outcomes of one run of the module-level pipeline (app.py
lines 123-219).  `processFailure` records what the two `st.text` calls
on lines 156-157 show: the exception rendering, and the raw model
response if the name `llm_response` was bound (the empty string
otherwise).  `crashed` stands for the unhandled AttributeError that
line 168 raises when `json.loads` returned a non-object. -/
inductive PipelineOutcome where
  | unsupportedType
  | emptyContent
  | processFailure (errText : String) (rawShown : String)
  | crashed
  | rendered (extracted : String) (result : InterpretedResult) (erp : ErpPath)

/-- Python `str.startswith` (app.py line 136). -/
def pyStartsWith (s p : String) : Bool :=
  p.data.isPrefixOf s.data

/-- The tail of the module-level pipeline from the extracted text
onward (app.py lines 144-212): empty-content guard, prompt build, the
single Bedrock call, `json.loads`, then the presentation reads.
`loads` abstracts `json.loads`; its error value is the JSONDecodeError
rendering. -/
def runPipeline (extracted_text : String)
    (brt : BedrockRequest → Except PyException ConverseResponse)
    (loads : String → Except String JsonVal) :
    PipelineOutcome × List BedrockRequest :=
  if extracted_text = "" then (PipelineOutcome.emptyContent, [])
  else
    match converseLog brt MODEL_ID (build_prompt extracted_text) with
    | (Except.error e, reqs) => (PipelineOutcome.processFailure e "", reqs)
    | (Except.ok llm_response, reqs) =>
      match loads llm_response with
      | Except.error e => (PipelineOutcome.processFailure e llm_response, reqs)
      | Except.ok (JsonVal.obj parsed) =>
          (PipelineOutcome.rendered extracted_text (interpret parsed)
            (erpBranch (interpret parsed).erp_status), reqs)
      | Except.ok _ => (PipelineOutcome.crashed, reqs)

/-- The uploaded file together with what the external extraction
libraries would yield on it: the per-page `pdfplumber` texts if read as
a PDF, and the decoded PIL image if read as an image. -/
structure FileUpload where
  type : String
  pdfPages : List (Option String)
  imageInfo : PILImage

/-- The module-level pipeline dispatch on the declared media type
(app.py lines 131-146) followed by the rest of the run. -/
def processPipeline (file : FileUpload)
    (brt : BedrockRequest → Except PyException ConverseResponse)
    (loads : String → Except String JsonVal) :
    PipelineOutcome × List BedrockRequest :=
  if file.type = "application/pdf" then
    runPipeline (extract_text_from_pdf file.pdfPages) brt loads
  else if pyStartsWith file.type "image/" then
    runPipeline (dumps2 (JsonVal.obj (process_image file.imageInfo))) brt loads
  else (PipelineOutcome.unsupportedType, [])

/-! ## Helper lemmas -/

theorem foldl_pdfStep_append (l : List (Option String)) (acc : String) :
    l.foldl pdfStep acc = acc ++ l.foldl pdfStep "" := by
  induction l generalizing acc with
  | nil => simp
  | cons p l ih =>
    rw [List.foldl_cons, List.foldl_cons, ih (pdfStep acc p), ih (pdfStep "" p)]
    cases p with
    | none => simp [pdfStep]
    | some t =>
      by_cases ht : t = "" <;> simp [pdfStep, ht, String.append_assoc]

theorem foldl_pdfStep_all_nonempty (pages : List String) (h : ∀ t ∈ pages, t ≠ "") :
    (pages.map some).foldl pdfStep "" = pagesConcat pages := by
  induction pages with
  | nil => rfl
  | cons p ps ih =>
    have hp : p ≠ "" := h p (by simp)
    rw [List.map_cons, List.foldl_cons, foldl_pdfStep_append,
      ih (fun t ht => h t (by simp [ht]))]
    simp [pdfStep, hp, pagesConcat, String.append_assoc]

theorem append_brace_ne_empty (s : String) : "\x7b\n" ++ s ≠ "" := by
  intro h
  have hd : ("\x7b\n" ++ s).data = ("" : String).data := congrArg String.data h
  rw [String.data_append] at hd
  have hd2 : '\x7b' :: ('\n' :: ([] : List Char)) ++ s.data = ([] : List Char) := hd
  exact absurd hd2 (by simp)

theorem dumps2_obj_cons_ne_empty (kv : String × JsonVal) (kvs : List (String × JsonVal)) :
    dumps2 (JsonVal.obj (kv :: kvs)) ≠ "" := by
  have hshape : dumps2 (JsonVal.obj (kv :: kvs))
      = "\x7b\n" ++ (dumpsObjItems (kv :: kvs) 1 ++ ("\n" ++ (jsonIndent 0 ++ "\x7d"))) := by
    simp [dumps2, dumpsVal, String.append_assoc]
  rw [hshape]
  exact append_brace_ne_empty _

theorem erpBranch_ready_iff (v : JsonVal) :
    erpBranch v = ErpPath.ready ↔ v = JsonVal.str "READY" := by
  cases v <;> simp [erpBranch]

theorem runPipeline_ne_emptyContent (extracted_text : String) (hne : extracted_text ≠ "")
    (brt : BedrockRequest → Except PyException ConverseResponse)
    (loads : String → Except String JsonVal) :
    (runPipeline extracted_text brt loads).1 ≠ PipelineOutcome.emptyContent := by
  unfold runPipeline
  rw [if_neg hne]
  split
  · simp
  · split <;> simp

/-! ## Claim theorems -/

/-- Claim C1 (counterexample): the extractor's output is not, in
general, the page concatenation trimmed of trailing whitespace only:
on a one-page PDF whose page text is " a" (non-empty), `strip()`
removes the leading space as well, so the output "a" differs from the
trailing-trimmed concatenation " a". -/
theorem extract_text_from_pdf_trailing_cex :
    extract_text_from_pdf [some " a"] ≠ trimTrailing (pagesConcat [" a"]) := by
  decide

/-- Claim C1 (amended): for every PDF whose pages each yield non-empty
extracted text, the extractor's output equals the concatenation, in
page order, of each page's text followed by a newline, trimmed of
leading and trailing whitespace; and pages whose extraction yields
nothing (None or the empty string) contribute nothing to the result. -/
theorem extract_text_from_pdf_ok (pages : List String) (h : ∀ t ∈ pages, t ≠ "")
    (xs ys : List (Option String)) :
    extract_text_from_pdf (pages.map some) = pyStrip (pagesConcat pages)
    ∧ extract_text_from_pdf (xs ++ none :: ys) = extract_text_from_pdf (xs ++ ys)
    ∧ extract_text_from_pdf (xs ++ some "" :: ys) = extract_text_from_pdf (xs ++ ys) := by
  refine ⟨?_, ?_, ?_⟩
  · unfold extract_text_from_pdf
    rw [foldl_pdfStep_all_nonempty pages h]
  · simp [extract_text_from_pdf, List.foldl_append, pdfStep]
  · simp [extract_text_from_pdf, List.foldl_append, pdfStep]

theorem extract_text_from_pdf_ok_witness :
    extract_text_from_pdf (["page one ", " page two"].map some)
        = pyStrip (pagesConcat ["page one ", " page two"])
    ∧ extract_text_from_pdf ([some "page one "] ++ none :: [some " page two"])
        = extract_text_from_pdf ([some "page one "] ++ [some " page two"])
    ∧ extract_text_from_pdf ([some "page one "] ++ some "" :: [some " page two"])
        = extract_text_from_pdf ([some "page one "] ++ [some " page two"]) :=
  extract_text_from_pdf_ok ["page one ", " page two"] (by decide)
    [some "page one "] [some " page two"]

/-- Claim C2: if the parsed response object carries all six schema
keys, the interpreted result's six fields equal the corresponding JSON
values exactly. -/
theorem interpret_roundtrip (parsed : List (String × JsonVal)) (s d o dt e td : JsonVal)
    (hs : parsed.lookup "summary" = some s)
    (hd : parsed.lookup "domain" = some d)
    (ho : parsed.lookup "origin" = some o)
    (hdt : parsed.lookup "document_type" = some dt)
    (he : parsed.lookup "erp_status" = some e)
    (htd : parsed.lookup "transformed_data" = some td) :
    interpret parsed = ⟨s, d, o, dt, e, td⟩ := by
  simp [interpret, getD, hs, hd, ho, hdt, he, htd]

theorem interpret_roundtrip_witness :
    interpret [("summary", JsonVal.str "Invoice for 100"), ("domain", JsonVal.str "Finance"),
        ("origin", JsonVal.str "US"), ("document_type", JsonVal.str "Invoice"),
        ("erp_status", JsonVal.str "READY"), ("transformed_data", JsonVal.obj [])]
      = ⟨JsonVal.str "Invoice for 100", JsonVal.str "Finance", JsonVal.str "US",
          JsonVal.str "Invoice", JsonVal.str "READY", JsonVal.obj []⟩ :=
  interpret_roundtrip _ _ _ _ _ _ _ rfl rfl rfl rfl rfl rfl

/-- Claim C3 (counterexample): the documented default for a missing
`summary` is not "Unknown"; the source substitutes "No summary
available" (app.py line 176). -/
theorem interpret_summary_default_cex :
    List.lookup "summary" ([] : List (String × JsonVal)) = none
    ∧ (interpret []).summary ≠ JsonVal.str "Unknown" := by
  refine ⟨rfl, ?_⟩
  have h3 : (interpret []).summary = JsonVal.str "No summary available" := rfl
  rw [h3]
  intro h
  injection h with h2
  exact absurd h2 (by decide)

/-- Claim C3 (amended): each of the six fields is looked up
independently; an absent field is replaced by its default — "No
summary available" for summary, "Unknown" for domain, origin and
document_type, "NOT_READY" for erp_status, the empty object for
transformed_data — and every present field passes through unchanged. -/
theorem interpret_field_defaults (parsed : List (String × JsonVal)) :
    ((parsed.lookup "summary" = none →
        (interpret parsed).summary = JsonVal.str "No summary available")
      ∧ ∀ v, parsed.lookup "summary" = some v → (interpret parsed).summary = v)
    ∧ ((parsed.lookup "domain" = none → (interpret parsed).domain = JsonVal.str "Unknown")
      ∧ ∀ v, parsed.lookup "domain" = some v → (interpret parsed).domain = v)
    ∧ ((parsed.lookup "origin" = none → (interpret parsed).origin = JsonVal.str "Unknown")
      ∧ ∀ v, parsed.lookup "origin" = some v → (interpret parsed).origin = v)
    ∧ ((parsed.lookup "document_type" = none →
        (interpret parsed).document_type = JsonVal.str "Unknown")
      ∧ ∀ v, parsed.lookup "document_type" = some v → (interpret parsed).document_type = v)
    ∧ ((parsed.lookup "erp_status" = none →
        (interpret parsed).erp_status = JsonVal.str "NOT_READY")
      ∧ ∀ v, parsed.lookup "erp_status" = some v → (interpret parsed).erp_status = v)
    ∧ ((parsed.lookup "transformed_data" = none →
        (interpret parsed).transformed_data = JsonVal.obj [])
      ∧ ∀ v, parsed.lookup "transformed_data" = some v →
          (interpret parsed).transformed_data = v) := by
  refine ⟨⟨?_, ?_⟩, ⟨?_, ?_⟩, ⟨?_, ?_⟩, ⟨?_, ?_⟩, ⟨?_, ?_⟩, ⟨?_, ?_⟩⟩ <;>
    first
      | (intro h; simp [interpret, getD, h])
      | (intro v h; simp [interpret, getD, h])

theorem interpret_field_defaults_witness :
    (interpret []).domain = JsonVal.str "Unknown"
    ∧ (interpret [("domain", JsonVal.str "Finance")]).domain = JsonVal.str "Finance" :=
  ⟨(interpret_field_defaults []).2.1.1 rfl,
   (interpret_field_defaults [("domain", JsonVal.str "Finance")]).2.1.2 _ rfl⟩

/-- Claim C4 (counterexample): the metadata record `process_image`
builds (and the pipeline serializes) carries the key `document_type` in
addition to the four metadata keys, so its key set is not exactly
format, mode, width, height. -/
theorem process_image_four_keys_cex :
    "document_type" ∈ (process_image ⟨some "PNG", "RGB", 10, 10, []⟩).map Prod.fst
    ∧ "document_type" ∉ (["format", "mode", "width", "height"] : List String) := by
  decide

/-- Claim C4 (amended): for every image input, the record the Content
Extractor serializes has exactly the five keys document_type, format,
mode, width, height, and the serialized output is unchanged under any
change to the image's pixel content (it depends only on the four
metadata attributes). -/
theorem process_image_record (img img2 : PILImage)
    (hf : img.format = img2.format) (hm : img.mode = img2.mode)
    (hw : img.width = img2.width) (hh : img.height = img2.height) :
    (process_image img).map Prod.fst = ["document_type", "format", "mode", "width", "height"]
    ∧ dumps2 (JsonVal.obj (process_image img)) = dumps2 (JsonVal.obj (process_image img2)) := by
  constructor
  · rfl
  · have heq : process_image img = process_image img2 := by
      unfold process_image
      rw [hf, hm, hw, hh]
    rw [heq]

theorem process_image_record_witness :
    (process_image ⟨some "PNG", "RGB", 10, 10, [[0]]⟩).map Prod.fst
        = ["document_type", "format", "mode", "width", "height"]
    ∧ dumps2 (JsonVal.obj (process_image ⟨some "PNG", "RGB", 10, 10, [[0]]⟩))
        = dumps2 (JsonVal.obj (process_image ⟨some "PNG", "RGB", 10, 10, [[255]]⟩)) :=
  process_image_record ⟨some "PNG", "RGB", 10, 10, [[0]]⟩
    ⟨some "PNG", "RGB", 10, 10, [[255]]⟩ rfl rfl rfl rfl

/-- Claim C5: when the model response does not parse as JSON, the run
ends in the failure display that carries the parse error together with
the raw response text unmodified; no recovery is attempted. -/
theorem malformed_response_preserves_raw (extracted_text : String)
    (hne : extracted_text ≠ "")
    (brt : BedrockRequest → Except PyException ConverseResponse)
    (loads : String → Except String JsonVal) (raw err : String)
    (hconv : converse brt MODEL_ID (build_prompt extracted_text) = Except.ok raw)
    (hparse : loads raw = Except.error err) :
    (runPipeline extracted_text brt loads).1 = PipelineOutcome.processFailure err raw := by
  simp [runPipeline, hne, converseLog, hconv, hparse]

theorem malformed_response_preserves_raw_witness :
    (runPipeline "doc"
        (fun _ => Except.ok ⟨⟨⟨"assistant", [⟨some "Sorry, I cannot process this."⟩]⟩⟩⟩)
        (fun _ => Except.error "Expecting value: line 1 column 1 (char 0)")).1
      = PipelineOutcome.processFailure "Expecting value: line 1 column 1 (char 0)"
          "Sorry, I cannot process this." :=
  malformed_response_preserves_raw "doc" (by decide) _ _ _ _ rfl rfl

/-- Claim C6: every exception the client raises is re-raised as the
single uniform invocation-failure error whose message carries the
original cause; two failures of different exception classes with the
same rendering are indistinguishable to the caller. -/
theorem converse_uniform_failure
    (brt brt2 : BedrockRequest → Except PyException ConverseResponse)
    (model_id user_message : String) (e e2 : PyException)
    (h : brt (converseRequest model_id user_message) = Except.error e)
    (h2 : brt2 (converseRequest model_id user_message) = Except.error e2)
    (hm : e.message = e2.message) :
    converse brt model_id user_message
        = Except.error ("Bedrock invocation failed: " ++ e.message)
    ∧ converse brt model_id user_message = converse brt2 model_id user_message := by
  constructor
  · simp [converse, h]
  · simp [converse, h, h2, hm]

theorem converse_uniform_failure_witness :
    converse (fun _ => Except.error ⟨"ClientError", "An error occurred"⟩) MODEL_ID "hi"
        = Except.error ("Bedrock invocation failed: " ++ "An error occurred")
    ∧ converse (fun _ => Except.error ⟨"ClientError", "An error occurred"⟩) MODEL_ID "hi"
        = converse (fun _ => Except.error ⟨"ValueError", "An error occurred"⟩) MODEL_ID "hi" :=
  converse_uniform_failure _ _ MODEL_ID "hi" ⟨"ClientError", "An error occurred"⟩
    ⟨"ValueError", "An error occurred"⟩ rfl rfl rfl

/-- Claim C7: one call to `converse` issues exactly one request, whose
payload carries the prompt as a single user-role turn and the fixed
decoding parameters maxTokens 8192, temperature 0.5, topP 0.9, and on a
successful reply whose first content block is a text block it returns
exactly that first text segment. -/
theorem converse_single_request
    (brt : BedrockRequest → Except PyException ConverseResponse)
    (model_id user_message : String) (response : ConverseResponse)
    (block : ContentBlock) (rest : List ContentBlock) (t : String)
    (hok : brt (converseRequest model_id user_message) = Except.ok response)
    (hcontent : response.output.message.content = block :: rest)
    (htext : block.text = some t) :
    converseLog brt model_id user_message
        = (Except.ok t, [converseRequest model_id user_message])
    ∧ (converseRequest model_id user_message).messages
        = [{ role := "user", content := [{ text := some user_message }] }]
    ∧ (converseRequest model_id user_message).inferenceConfig.maxTokens = 8192
    ∧ (converseRequest model_id user_message).inferenceConfig.temperature = 0.5
    ∧ (converseRequest model_id user_message).inferenceConfig.topP = 0.9
    ∧ (converseRequest model_id user_message).modelId = model_id := by
  refine ⟨?_, rfl, rfl, rfl, rfl, rfl⟩
  simp [converseLog, converse, hok, hcontent, htext]

theorem converse_single_request_witness :
    converseLog (fun _ => Except.ok ⟨⟨⟨"assistant", [⟨some "hello"⟩]⟩⟩⟩) MODEL_ID "prompt"
        = (Except.ok "hello", [converseRequest MODEL_ID "prompt"])
    ∧ (converseRequest MODEL_ID "prompt").messages
        = [{ role := "user", content := [{ text := some "prompt" }] }]
    ∧ (converseRequest MODEL_ID "prompt").inferenceConfig.maxTokens = 8192
    ∧ (converseRequest MODEL_ID "prompt").inferenceConfig.temperature = 0.5
    ∧ (converseRequest MODEL_ID "prompt").inferenceConfig.topP = 0.9
    ∧ (converseRequest MODEL_ID "prompt").modelId = MODEL_ID :=
  converse_single_request _ MODEL_ID "prompt" ⟨⟨⟨"assistant", [⟨some "hello"⟩]⟩⟩⟩
    ⟨some "hello"⟩ [] "hello" rfl rfl rfl

theorem dumps2_process_image_ne_empty (img : PILImage) :
    dumps2 (JsonVal.obj (process_image img)) ≠ "" :=
  dumps2_obj_cons_ne_empty _ _

/-- Claim C8: if extraction yields the empty string (possible only on
the PDF path), the run ends with the empty-content error and no request
is ever issued to the inference client; on every image input the
serialized metadata record is non-empty by construction, so the
empty-content abort is unreachable there. -/
theorem empty_guard (file : FileUpload)
    (brt : BedrockRequest → Except PyException ConverseResponse)
    (loads : String → Except String JsonVal) :
    (file.type = "application/pdf" → extract_text_from_pdf file.pdfPages = "" →
      processPipeline file brt loads = (PipelineOutcome.emptyContent, []))
    ∧ (pyStartsWith file.type "image/" = true →
      (processPipeline file brt loads).1 ≠ PipelineOutcome.emptyContent) := by
  constructor
  · intro hpdf hempty
    simp [processPipeline, hpdf, runPipeline, hempty]
  · intro himg
    have hnotpdf : file.type ≠ "application/pdf" := by
      intro hp
      rw [hp] at himg
      exact absurd himg (by decide)
    unfold processPipeline
    rw [if_neg hnotpdf, if_pos himg]
    exact runPipeline_ne_emptyContent _ (dumps2_process_image_ne_empty _) brt loads

theorem empty_guard_witness :
    processPipeline ⟨"application/pdf", [none, some ""], ⟨some "PNG", "RGB", 1, 1, []⟩⟩
        (fun _ => Except.error ⟨"ClientError", "boom"⟩) (fun _ => Except.error "bad")
      = (PipelineOutcome.emptyContent, [])
    ∧ (processPipeline ⟨"image/png", [], ⟨some "PNG", "RGB", 10, 10, []⟩⟩
        (fun _ => Except.error ⟨"ClientError", "boom"⟩) (fun _ => Except.error "bad")).1
      ≠ PipelineOutcome.emptyContent :=
  ⟨(empty_guard ⟨"application/pdf", [none, some ""], ⟨some "PNG", "RGB", 1, 1, []⟩⟩ _ _).1
      rfl (by decide),
   (empty_guard ⟨"image/png", [], ⟨some "PNG", "RGB", 10, 10, []⟩⟩ _ _).2 (by decide)⟩

/-- Claim C9: the Prompt Builder is a pure function of the extracted
content string: runs on equal inputs produce byte-identical prompts. -/
theorem build_prompt_deterministic (a b : String) (h : a = b) :
    build_prompt a = build_prompt b := by
  rw [h]

theorem build_prompt_deterministic_witness :
    build_prompt "Invoice #42, Total 100" = build_prompt "Invoice #42, Total 100" :=
  build_prompt_deterministic "Invoice #42, Total 100" "Invoice #42, Total 100" rfl

/-- Claim C10: the presentation selects the ready path exactly when the
interpreted erp_status is the string "READY"; any other value sends the
run to manual review, and in particular so does the "NOT_READY" default
substituted when erp_status is absent. -/
theorem erp_branch_ready_characterisation (parsed : List (String × JsonVal)) :
    (erpBranch (interpret parsed).erp_status = ErpPath.ready
        ↔ (interpret parsed).erp_status = JsonVal.str "READY")
    ∧ ((interpret parsed).erp_status ≠ JsonVal.str "READY" →
        erpBranch (interpret parsed).erp_status = ErpPath.manualReview)
    ∧ (parsed.lookup "erp_status" = none →
        erpBranch (interpret parsed).erp_status = ErpPath.manualReview) := by
  refine ⟨erpBranch_ready_iff _, ?_, ?_⟩
  · intro hne
    cases he : erpBranch (interpret parsed).erp_status with
    | ready => exact absurd ((erpBranch_ready_iff _).mp he) hne
    | manualReview => rfl
  · intro h
    have hs : (interpret parsed).erp_status = JsonVal.str "NOT_READY" := by
      simp [interpret, getD, h]
    rw [hs]
    rfl

theorem erp_branch_ready_characterisation_witness :
    erpBranch (interpret [("erp_status", JsonVal.str "READY")]).erp_status = ErpPath.ready
    ∧ erpBranch (interpret [("domain", JsonVal.str "Finance")]).erp_status
        = ErpPath.manualReview :=
  ⟨(erp_branch_ready_characterisation [("erp_status", JsonVal.str "READY")]).1.mpr rfl,
   (erp_branch_ready_characterisation [("domain", JsonVal.str "Finance")]).2.2 rfl⟩
